import Mathlib

/-!
Verification of the C++ constructor generator of a cross-language binding
generator (cxx-qt-gen), embedded shallowly from
`crates/cxx-qt-gen/src/generator/cpp/constructor.rs` and
`crates/cxx-qt-gen/src/generator/cpp/mod.rs`.

Pure string-building Rust code is translated into Lean functions; the
fallible parts (type resolution, parameter extraction) return `Except`.
Generated C++ text is modelled byte for byte; literal braces in generated
text are written with the escapes \x7b and \x7d.
-/

/-- Modelled from the spec: a semantic type reference handed to the
Type-Name Resolver (the source's `syn::Type`).  The resolver itself
(`syn_type_to_cpp_type`) is not among the provided source files; this
carrier covers the primitive integer types, mutable raw pointers and
named (possibly alias-mapped) types exercised by the repository's own
tests, plus a constructor for types with no known textual spelling. -/
inductive RustType where
  | i8
  | i16
  | i32
  | i64
  | ptrMut (target : RustType)
  | named (name : String)
  | unsupported (descr : String)
deriving DecidableEq

/-- The namespace/alias table consulted by the Type-Name Resolver
(the source's `ParsedCxxMappings` / `TypeNames`): a mapping from a
semantic type identity to a namespaced textual spelling. -/
structure ParsedCxxMappings where
  cxx_names : List (String × String)
deriving DecidableEq

/-- Modelled from the spec: the Type-Name Resolver "maps a semantic type
reference to its framework-side textual spelling, consulting a
namespace/alias table"; a type with no known textual spelling is an
unresolved-type error.  Concrete spellings (`::std::int8_t`, trailing
`*` for mutable pointers, ...) follow the repository's own unit tests in
`constructor.rs`. -/
def syn_type_to_cpp_type (ty : RustType) (cxx_mappings : ParsedCxxMappings) :
    Except String String :=
  match ty with
  | .i8 => .ok "::std::int8_t"
  | .i16 => .ok "::std::int16_t"
  | .i32 => .ok "::std::int32_t"
  | .i64 => .ok "::std::int64_t"
  | .ptrMut target =>
    match syn_type_to_cpp_type target cxx_mappings with
    | .ok cpp => .ok (cpp ++ "*")
    | .error e => .error e
  | .named name =>
    match cxx_mappings.cxx_names.lookup name with
    | some cpp => .ok cpp
    | none => .ok name
  | .unsupported descr => .error ("Unsupported type: " ++ descr)

/-- Modelled from the spec: the Fragment Model, "either HeaderOnly(text)
or Pair(header_text, source_text)" (the source's `CppFragment`). -/
inductive CppFragment where
  | Header (header : String)
  | Pair (header : String) (source : String)
deriving DecidableEq

/-- Observer: the header text of a fragment. -/
def fragment_header : CppFragment → String
  | .Header header => header
  | .Pair header _ => header

/-- Observer: the source text of a fragment (empty for header-only). -/
def fragment_source : CppFragment → String
  | .Header _ => ""
  | .Pair _ source => source

/-- Modelled from the spec: the ObjectBundle / `GeneratedCppQObjectBlocks`
record of typed fragment buckets (methods, private methods, members,
metaobject entries, forward declarations, deconstructors), matching the
field names used by `constructor.rs` and its tests. -/
structure GeneratedCppQObjectBlocks where
  methods : List CppFragment := []
  private_methods : List CppFragment := []
  members : List CppFragment := []
  metaobjects : List CppFragment := []
  forward_declares : List CppFragment := []
  deconstructors : List CppFragment := []
deriving DecidableEq

/-- The per-object descriptor (`GeneratedCppQObject`), with the fields
used by `constructor.rs` and its tests. -/
structure GeneratedCppQObject where
  ident : String
  rust_ident : String
  namespace_internals : String
  base_class : String
  blocks : GeneratedCppQObjectBlocks := {}
  locking : Bool := true
deriving DecidableEq

/-- One declared constructor (`parser::constructor::Constructor`): four
ordered parameter lists.  The source record also carries `imp`, the Rust
implementation block, which the generator never reads; it is omitted. -/
structure Constructor where
  arguments : List RustType := []
  base_arguments : List RustType := []
  new_arguments : List RustType := []
  initialize_arguments : List RustType := []
deriving DecidableEq

/-- Embeds `argument_names` from `constructor.rs`: positional names
`arg0, arg1, ...`, one per argument, the argument types being ignored. -/
def argument_names (arguments : List RustType) : List String :=
  arguments.enum.map (fun p => "arg" ++ toString p.fst)

/-- The iterator chain inside `expand_arguments`: resolve each (type,
name) pair to `"<cpp-type> <name>"`, stopping at the first resolver
error (Rust's `collect::<Result<Vec<_>>>`). -/
def resolve_each : List (RustType × String) → ParsedCxxMappings →
    Except String (List String)
  | [], _ => .ok []
  | p :: rest, cxx_mappings =>
    match syn_type_to_cpp_type p.fst cxx_mappings with
    | .error e => .error e
    | .ok ty =>
      match resolve_each rest cxx_mappings with
      | .error e => .error e
      | .ok parts => .ok ((ty ++ " " ++ p.snd) :: parts)

/-- Embeds `expand_arguments` from `constructor.rs`: the comma-joined C++
parameter list of a constructor. -/
def expand_arguments (arguments : List RustType) (cxx_mappings : ParsedCxxMappings) :
    Except String String :=
  match resolve_each (arguments.zip (argument_names arguments)) cxx_mappings with
  | .ok parts => .ok (String.intercalate ", " parts)
  | .error e => .error e

/-- The member-initializer accumulation at the top of `generate`: each
extra initializer snippet is prefixed by a line break and `  , `. -/
def initializers_string (member_initializers : List String) : String :=
  String.join (member_initializers.map (fun initializer => "\n  , " ++ initializer))

/-- Embeds `default_constructor` from `constructor.rs`: the single public
constructor emitted when no constructors are declared. -/
def default_constructor (qobject : GeneratedCppQObject) (initializers : String) :
    GeneratedCppQObjectBlocks :=
  { methods := [CppFragment.Pair
      ("explicit " ++ qobject.ident ++ "(QObject* parent = nullptr);")
      (qobject.ident ++ "::" ++ qobject.ident ++ "(QObject* parent)\n  : "
        ++ qobject.base_class ++ "(parent)\n  , m_rustObj(::"
        ++ qobject.namespace_internals ++ "::createRs())" ++ initializers
        ++ "\n\x7b \x7d\n")] }

/-- The public constructor fragment pushed onto `generated.methods` for
constructor `index` in `generate` (`constructor.rs`). -/
def public_constructor_fragment (class_name namespace_internals : String)
    (index : Nat) (argument_list : String)
    (constructor_argument_names : List String) : CppFragment :=
  CppFragment.Pair
    ("explicit " ++ class_name ++ "(" ++ argument_list ++ ");")
    (class_name ++ "::" ++ class_name ++ "(" ++ argument_list ++ ")\n  : "
      ++ class_name ++ "(::" ++ namespace_internals ++ "::routeArguments"
      ++ toString index ++ "("
      ++ String.intercalate ", "
          (constructor_argument_names.map (fun arg => "::std::move(" ++ arg ++ ")"))
      ++ "))\n\x7b \x7d\n")

/-- The `base_args` string computed in `generate` (`constructor.rs`):
each base-class argument moved out of the aggregate's `base` sub-group,
empty when the base-argument list is empty. -/
def base_args_string (base_arguments : List RustType) : String :=
  if !base_arguments.isEmpty then
    String.intercalate ", "
      ((argument_names base_arguments).map
        (fun arg => "::std::move(args.base." ++ arg ++ ")"))
  else
    ""

/-- The private constructor fragment pushed onto
`generated.private_methods` for constructor `index` in `generate`
(`constructor.rs`). -/
def private_constructor_fragment
    (class_name namespace_internals base_class initializers : String)
    (index : Nat) (base_arguments : List RustType) : CppFragment :=
  CppFragment.Pair
    ("explicit " ++ class_name ++ "(::" ++ namespace_internals
      ++ "::CxxQtConstructorArguments" ++ toString index ++ "&& args);")
    (class_name ++ "::" ++ class_name ++ "(::" ++ namespace_internals
      ++ "::CxxQtConstructorArguments" ++ toString index ++ "&& args)\n  : "
      ++ base_class ++ "(" ++ base_args_string base_arguments
      ++ ")\n  , m_rustObj(::" ++ namespace_internals ++ "::newRs"
      ++ toString index ++ "(::std::move(args.new_)))" ++ initializers
      ++ "\n\x7b\n  ::" ++ namespace_internals ++ "::initialize"
      ++ toString index
      ++ "(*this, ::std::move(args.initialize));\n\x7d\n")

/-- The enumerated loop body of `generate` (`constructor.rs`): per
constructor, one public and one private fragment, aborting at the first
argument-expansion error (Rust's `?`). -/
def generate_constructor_pairs
    (class_name namespace_internals base_class initializers : String)
    (cxx_mappings : ParsedCxxMappings) :
    Nat → List Constructor → Except String (List CppFragment × List CppFragment)
  | _, [] => .ok ([], [])
  | index, constructor :: rest =>
    match expand_arguments constructor.arguments cxx_mappings with
    | .error e => .error e
    | .ok argument_list =>
      match generate_constructor_pairs class_name namespace_internals base_class
          initializers cxx_mappings (index + 1) rest with
      | .error e => .error e
      | .ok (methods, private_methods) =>
        .ok
          (public_constructor_fragment class_name namespace_internals index
              argument_list (argument_names constructor.arguments) :: methods,
           private_constructor_fragment class_name namespace_internals base_class
              initializers index constructor.base_arguments :: private_methods)

/-- Embeds `generate` from `constructor.rs`: the Constructor Generator.  With no
declared constructors it returns the default constructor; otherwise one
public and one private fragment per declared constructor, in order, or
the first type-resolution error. -/
def generate (qobject : GeneratedCppQObject) (constructors : List Constructor)
    (member_initializers : List String) (cxx_mappings : ParsedCxxMappings) :
    Except String GeneratedCppQObjectBlocks :=
  if constructors.isEmpty then
    .ok (default_constructor qobject (initializers_string member_initializers))
  else
    match generate_constructor_pairs qobject.ident qobject.namespace_internals
        qobject.base_class (initializers_string member_initializers)
        cxx_mappings 0 constructors with
    | .error e => .error e
    | .ok (methods, private_methods) =>
      .ok { methods := methods, private_methods := private_methods }

/-- A declared parameter pattern (`syn::Pat`), as far as `get_cpp_params`
inspects it: a single bound name, or anything else. -/
inductive Pat where
  | ident (name : String)
  | other (descr : String)
deriving DecidableEq

/-- A function-signature input (`syn::FnArg`): the receiver form
(`self`, `&self`, ...) or a typed pattern. -/
inductive FnArg where
  | receiver
  | typed (pat : Pat) (ty : RustType)
deriving DecidableEq

/-- Embeds `CppNamedType` from `fragment.rs`: a (parameter name, resolved C++
type) pair. -/
structure CppNamedType where
  ident : String
  ty : String
deriving DecidableEq

/-- Embeds `get_cpp_params` from `mod.rs`: walk the signature inputs in order;
a receiver form or a parameter bound to the name `self` is skipped; a
typed parameter whose pattern is not a single bound name is an
unsupported-pattern error; otherwise the declared name is paired with
its resolved C++ type.  The first error wins (Rust's
`collect::<Result<Vec<_>>>`). -/
def get_cpp_params : List FnArg → ParsedCxxMappings →
    Except String (List CppNamedType)
  | [], _ => .ok []
  | input :: rest, type_names =>
    match input with
    | .receiver => get_cpp_params rest type_names
    | .typed pat ty =>
      match pat with
      | .other _ => .error "Unknown pattern for type"
      | .ident name =>
        if name = "self" then
          get_cpp_params rest type_names
        else
          match syn_type_to_cpp_type ty type_names with
          | .error e => .error e
          | .ok cppTy =>
            match get_cpp_params rest type_names with
            | .error e => .error e
            | .ok params => .ok ({ ident := name, ty := cppTy } :: params)

/-- Specification-side observer: the declared names of the non-receiver,
non-`self` parameters of a signature, in order. -/
def declared_param_names (inputs : List FnArg) : List String :=
  inputs.filterMap (fun input =>
    match input with
    | .typed (.ident name) _ => if name = "self" then none else some name
    | _ => none)

/-- Specification-side observer: the (declared name, declared type)
pairs of the non-receiver, non-`self` parameters of a signature, in
order. -/
def named_non_self_params (inputs : List FnArg) : List (String × RustType) :=
  inputs.filterMap (fun input =>
    match input with
    | .typed (.ident name) ty => if name = "self" then none else some (name, ty)
    | _ => none)

/-- Ordered-set insertion, the embedding of Rust's
`BTreeSet::<String>::insert`: the set is represented as a strictly
sorted list. -/
def btree_insert (s : List String) (x : String) : List String :=
  match s with
  | [] => [x]
  | y :: ys =>
    if x < y then x :: y :: ys
    else if x = y then y :: ys
    else y :: btree_insert ys x

/-- The include set accumulated by `GeneratedCppBlocks::from` (`mod.rs`):
every per-feature generator inserts its include entries, in input order,
into one `BTreeSet` that starts empty. -/
def collect_includes (insertions : List String) : List String :=
  insertions.foldl btree_insert []

/-- The top-level assembled output (`GeneratedCppBlocks` from `mod.rs`),
restricted to the bookkeeping fields the include-list claim is about. -/
structure GeneratedCppBlocks where
  forward_declares : List String
  includes : List String
  cxx_file_stem : String
deriving DecidableEq

/-- Modelled from the spec: the assembly performed by
`GeneratedCppBlocks::from`.  The per-feature generators
(`qnamespace::generate`, `qenum::generate_declaration`) are not among
the provided source files; they are abstracted as the arbitrary ordered
list of include entries they insert and the forward declarations they
return. -/
def generated_cpp_blocks_from (include_insertions : List String)
    (forward_declares : List String) (cxx_file_stem : String) : GeneratedCppBlocks :=
  { forward_declares := forward_declares,
    includes := collect_includes include_insertions,
    cxx_file_stem := cxx_file_stem }

/-- Splits a character list at line breaks (observer used to talk about
individual lines of generated source text). -/
def split_lines : List Char → List (List Char)
  | [] => [[]]
  | c :: rest =>
    match split_lines rest with
    | [] => if c = '\n' then [[], []] else [[c]]
    | line :: lines =>
      if c = '\n' then [] :: line :: lines else (c :: line) :: lines

/-- The object descriptor used by the repository's own unit tests
(`qobject_for_testing` in `constructor.rs`). -/
def myObjectForTesting : GeneratedCppQObject :=
  { ident := "MyObject",
    rust_ident := "MyObjectQt",
    namespace_internals := "rust",
    base_class := "BaseClass",
    blocks := {},
    locking := true }

/-- The constructor of the `constructor_with_all_arguments` unit test:
public args `(i8, i16)`, new args `(i16, i32)`, initialize args
`(i32, i64)`, base args `(i64, *mut QObject)`. -/
def allArgsConstructor : Constructor :=
  { arguments := [RustType.i8, RustType.i16],
    new_arguments := [RustType.i16, RustType.i32],
    initialize_arguments := [RustType.i32, RustType.i64],
    base_arguments := [RustType.i64, RustType.ptrMut (RustType.named "QObject")] }

/-- An empty namespace/alias table. -/
def emptyMappings : ParsedCxxMappings := { cxx_names := [] }

/-- The fragment set the generator produces for `myObjectForTesting`,
`[allArgsConstructor]` and the extra initializer `"initializer"` (the
expected value of the `constructor_with_all_arguments` unit test). -/
def allArgsBlocks : GeneratedCppQObjectBlocks :=
  { methods := [CppFragment.Pair
      "explicit MyObject(::std::int8_t arg0, ::std::int16_t arg1);"
      "MyObject::MyObject(::std::int8_t arg0, ::std::int16_t arg1)\n  : MyObject(::rust::routeArguments0(::std::move(arg0), ::std::move(arg1)))\n\x7b \x7d\n"],
    private_methods := [CppFragment.Pair
      "explicit MyObject(::rust::CxxQtConstructorArguments0&& args);"
      "MyObject::MyObject(::rust::CxxQtConstructorArguments0&& args)\n  : BaseClass(::std::move(args.base.arg0), ::std::move(args.base.arg1))\n  , m_rustObj(::rust::newRs0(::std::move(args.new_)))\n  , initializer\n\x7b\n  ::rust::initialize0(*this, ::std::move(args.initialize));\n\x7d\n"] }

/-- Observer: whether an `Except` value is an error. -/
def except_is_error {ε α : Type} : Except ε α → Bool
  | .error _ => true
  | .ok _ => false

theorem argument_names_range (l : List RustType) :
    argument_names l = (List.range l.length).map (fun k => "arg" ++ toString k) := by
  unfold argument_names
  rw [← List.enum_map_fst l, List.map_map]
  rfl

theorem argument_names_length (l : List RustType) :
    (argument_names l).length = l.length := by
  rw [argument_names_range, List.length_map, List.length_range]

theorem map_name_wrap (pre post : String) (args : List RustType) :
    (argument_names args).map (fun arg => pre ++ arg ++ post) =
      (List.range args.length).map (fun k => pre ++ "arg" ++ toString k ++ post) := by
  rw [argument_names_range, List.map_map]
  refine List.map_congr_left ?_
  intro k _
  show pre ++ ("arg" ++ toString k) ++ post = pre ++ "arg" ++ toString k ++ post
  rw [← String.append_assoc]

/-- C3: with no declared constructors, the generator emits exactly one
public fragment — header `explicit ClassName(QObject* parent = nullptr);`,
source chaining to the base class with the parent argument, then
initializing the business-object slot through the zero-argument
`createRs` entry point, then each extra initializer snippet in input
order — and no private fragment. -/
theorem default_constructor_generated (qobject : GeneratedCppQObject)
    (member_initializers : List String) (cxx_mappings : ParsedCxxMappings) :
    generate qobject [] member_initializers cxx_mappings =
      .ok { methods := [CppFragment.Pair
              ("explicit " ++ qobject.ident ++ "(QObject* parent = nullptr);")
              (qobject.ident ++ "::" ++ qobject.ident ++ "(QObject* parent)\n  : "
                ++ qobject.base_class ++ "(parent)\n  , m_rustObj(::"
                ++ qobject.namespace_internals ++ "::createRs())"
                ++ String.join (member_initializers.map (fun snippet => "\n  , " ++ snippet))
                ++ "\n\x7b \x7d\n")],
            private_methods := [], members := [], metaobjects := [],
            forward_declares := [], deconstructors := [] } :=
  rfl

/-- C7: the Constructor Generator is deterministic — identical object
descriptor, constructor list, extra-initializer list and type-name
table yield identical output. -/
theorem generate_deterministic (q q' : GeneratedCppQObject)
    (cs cs' : List Constructor) (inits inits' : List String)
    (m m' : ParsedCxxMappings)
    (hq : q = q') (hcs : cs = cs') (hinits : inits = inits') (hm : m = m') :
    generate q cs inits m = generate q' cs' inits' m' := by
  subst hq
  subst hcs
  subst hinits
  subst hm
  rfl

theorem generate_deterministic_witness :
    generate myObjectForTesting [allArgsConstructor] ["initializer"] emptyMappings =
      generate myObjectForTesting [allArgsConstructor] ["initializer"] emptyMappings :=
  generate_deterministic myObjectForTesting myObjectForTesting
    [allArgsConstructor] [allArgsConstructor] ["initializer"] ["initializer"]
    emptyMappings emptyMappings rfl rfl rfl rfl

/-- C9: whatever the input, the Constructor Generator only populates the
methods and private-methods buckets; the members, metaobjects,
forward-declares and deconstructors buckets of a successful output are
always empty. -/
theorem generate_populates_only_method_buckets
    (qobject : GeneratedCppQObject) (constructors : List Constructor)
    (member_initializers : List String) (cxx_mappings : ParsedCxxMappings)
    (blocks : GeneratedCppQObjectBlocks)
    (hok : generate qobject constructors member_initializers cxx_mappings = .ok blocks) :
    blocks.members = [] ∧ blocks.metaobjects = [] ∧
    blocks.forward_declares = [] ∧ blocks.deconstructors = [] := by
  unfold generate at hok
  split at hok
  · simp only [Except.ok.injEq] at hok
    subst hok
    exact ⟨rfl, rfl, rfl, rfl⟩
  · split at hok
    · exact absurd hok (by simp)
    · simp only [Except.ok.injEq] at hok
      subst hok
      exact ⟨rfl, rfl, rfl, rfl⟩

theorem generate_populates_only_method_buckets_witness :
    allArgsBlocks.members = [] ∧ allArgsBlocks.metaobjects = [] ∧
    allArgsBlocks.forward_declares = [] ∧ allArgsBlocks.deconstructors = [] :=
  generate_populates_only_method_buckets myObjectForTesting [allArgsConstructor]
    ["initializer"] emptyMappings allArgsBlocks rfl

theorem generate_pairs_ok (cn ns bc inits : String) (m : ParsedCxxMappings)
    (cs : List Constructor) :
    ∀ (k : Nat) (ms ps : List CppFragment),
      generate_constructor_pairs cn ns bc inits m k cs = .ok (ms, ps) →
      ms.length = cs.length ∧ ps.length = cs.length ∧
      ∀ i c, cs[i]? = some c →
        ps[i]? = some (private_constructor_fragment cn ns bc inits (k + i) c.base_arguments) ∧
        ∃ al, expand_arguments c.arguments m = .ok al ∧
          ms[i]? = some (public_constructor_fragment cn ns (k + i) al
            (argument_names c.arguments)) := by
  induction cs with
  | nil =>
    intro k ms ps h
    simp only [generate_constructor_pairs, Except.ok.injEq, Prod.mk.injEq] at h
    obtain ⟨h1, h2⟩ := h
    subst h1
    subst h2
    refine ⟨rfl, rfl, ?_⟩
    intro i c hc
    simp at hc
  | cons c0 rest ih =>
    intro k ms ps h
    unfold generate_constructor_pairs at h
    cases hexp : expand_arguments c0.arguments m with
    | error e =>
      rw [hexp] at h
      simp at h
    | ok al =>
      rw [hexp] at h
      cases hrec : generate_constructor_pairs cn ns bc inits m (k + 1) rest with
      | error e =>
        rw [hrec] at h
        simp at h
      | ok pr =>
        obtain ⟨ms', ps'⟩ := pr
        rw [hrec] at h
        simp only [Except.ok.injEq, Prod.mk.injEq] at h
        obtain ⟨hms, hps⟩ := h
        subst hms
        subst hps
        obtain ⟨hl1, hl2, hget⟩ := ih (k + 1) ms' ps' hrec
        refine ⟨by simp [hl1], by simp [hl2], ?_⟩
        intro i c hc
        cases i with
        | zero =>
          simp only [List.getElem?_cons_zero, Option.some.injEq] at hc
          subst hc
          exact ⟨by simp, al, hexp, by simp⟩
        | succ n =>
          simp only [List.getElem?_cons_succ] at hc ⊢
          obtain ⟨hp, al', hal', hm'⟩ := hget n c hc
          have hk : k + 1 + n = k + (n + 1) := by omega
          rw [hk] at hp hm'
          exact ⟨hp, al', hal', hm'⟩

theorem resolve_each_error (m : ParsedCxxMappings) (args : List RustType) :
    ∀ (names : List String), names.length = args.length →
      (∃ ty ∈ args, ∃ e, syn_type_to_cpp_type ty m = .error e) →
      ∃ e, resolve_each (args.zip names) m = .error e := by
  induction args with
  | nil =>
    intro names _ h
    obtain ⟨ty, hty, _⟩ := h
    simp at hty
  | cons a as ih =>
    intro names hlen h
    cases names with
    | nil => simp at hlen
    | cons n ns =>
      simp only [List.length_cons] at hlen
      have hlen' : ns.length = as.length := by omega
      obtain ⟨ty, hty, e, he⟩ := h
      rw [List.zip_cons_cons]
      cases hexp : syn_type_to_cpp_type a m with
      | error e0 => exact ⟨e0, by simp [resolve_each, hexp]⟩
      | ok ty0 =>
        rcases List.mem_cons.mp hty with rfl | hmem
        · rw [hexp] at he
          exact absurd he (by simp)
        · obtain ⟨e', he'⟩ := ih ns hlen' ⟨ty, hmem, e, he⟩
          exact ⟨e', by simp [resolve_each, hexp, he']⟩

theorem expand_arguments_error (m : ParsedCxxMappings) (args : List RustType)
    (h : ∃ ty ∈ args, ∃ e, syn_type_to_cpp_type ty m = .error e) :
    ∃ e, expand_arguments args m = .error e := by
  obtain ⟨e, he⟩ :=
    resolve_each_error m args (argument_names args) (argument_names_length args) h
  exact ⟨e, by simp [expand_arguments, he]⟩

theorem generate_pairs_error (cn ns bc inits : String) (m : ParsedCxxMappings)
    (cs : List Constructor) :
    ∀ (k : Nat),
      (∃ c ∈ cs, ∃ e, expand_arguments c.arguments m = .error e) →
      ∃ e, generate_constructor_pairs cn ns bc inits m k cs = .error e := by
  induction cs with
  | nil =>
    intro k h
    obtain ⟨c, hc, _⟩ := h
    simp at hc
  | cons c0 rest ih =>
    intro k h
    cases hexp : expand_arguments c0.arguments m with
    | error e => exact ⟨e, by simp [generate_constructor_pairs, hexp]⟩
    | ok al =>
      obtain ⟨c, hc, e, he⟩ := h
      rcases List.mem_cons.mp hc with rfl | hmem
      · rw [hexp] at he
        exact absurd he (by simp)
      · obtain ⟨e', he'⟩ := ih (k + 1) ⟨c, hmem, e, he⟩
        exact ⟨e', by simp [generate_constructor_pairs, hexp, he']⟩

/-- C6: if any declared parameter type of any constructor in the list
cannot be resolved by the Type-Name Resolver, the Constructor Generator
returns an error for the whole object and produces no fragments at
all. -/
theorem unresolved_type_aborts_generation
    (qobject : GeneratedCppQObject) (constructors : List Constructor)
    (member_initializers : List String) (cxx_mappings : ParsedCxxMappings)
    (h : ∃ c ∈ constructors, ∃ ty ∈ c.arguments, ∃ e,
        syn_type_to_cpp_type ty cxx_mappings = .error e) :
    ∃ e, generate qobject constructors member_initializers cxx_mappings = .error e := by
  obtain ⟨c, hc, ty, hty, e, he⟩ := h
  obtain ⟨e', he'⟩ :=
    generate_pairs_error qobject.ident qobject.namespace_internals qobject.base_class
      (initializers_string member_initializers) cxx_mappings constructors 0
      ⟨c, hc, expand_arguments_error cxx_mappings c.arguments ⟨ty, hty, e, he⟩⟩
  have hne : constructors.isEmpty = false := by
    cases constructors
    · simp at hc
    · rfl
  exact ⟨e', by simp [generate, hne, he']⟩

theorem unresolved_type_aborts_generation_witness :
    except_is_error (generate myObjectForTesting
      [{ arguments := [RustType.unsupported "trait object"] }] [] emptyMappings) = true := by
  obtain ⟨e, he⟩ := unresolved_type_aborts_generation myObjectForTesting
    [{ arguments := [RustType.unsupported "trait object"] }] [] emptyMappings
    ⟨{ arguments := [RustType.unsupported "trait object"] }, List.mem_cons_self _ _,
     RustType.unsupported "trait object", List.mem_cons_self _ _,
     "Unsupported type: trait object", rfl⟩
  rw [he]
  rfl

theorem generate_ok_get (qobject : GeneratedCppQObject) (constructors : List Constructor)
    (member_initializers : List String) (cxx_mappings : ParsedCxxMappings)
    (blocks : GeneratedCppQObjectBlocks)
    (hne : constructors.isEmpty = false)
    (hok : generate qobject constructors member_initializers cxx_mappings = .ok blocks) :
    blocks.methods.length = constructors.length ∧
    blocks.private_methods.length = constructors.length ∧
    ∀ i c, constructors[i]? = some c →
      blocks.private_methods[i]? = some (private_constructor_fragment qobject.ident
        qobject.namespace_internals qobject.base_class
        (initializers_string member_initializers) i c.base_arguments) ∧
      ∃ al, expand_arguments c.arguments cxx_mappings = .ok al ∧
        blocks.methods[i]? = some (public_constructor_fragment qobject.ident
          qobject.namespace_internals i al (argument_names c.arguments)) := by
  unfold generate at hok
  rw [hne] at hok
  simp only [Bool.false_eq_true, if_false] at hok
  cases hrec : generate_constructor_pairs qobject.ident qobject.namespace_internals
      qobject.base_class (initializers_string member_initializers) cxx_mappings
      0 constructors with
  | error e =>
    rw [hrec] at hok
    simp at hok
  | ok pr =>
    obtain ⟨ms, ps⟩ := pr
    rw [hrec] at hok
    simp only [Except.ok.injEq] at hok
    subst hok
    obtain ⟨h1, h2, h3⟩ := generate_pairs_ok qobject.ident qobject.namespace_internals
      qobject.base_class (initializers_string member_initializers) cxx_mappings
      constructors 0 ms ps hrec
    refine ⟨h1, h2, ?_⟩
    intro i c hc
    have h4 := h3 i c hc
    simpa using h4

theorem base_args_string_spec (l : List RustType) :
    base_args_string l = if l.isEmpty then "" else
      String.intercalate ", " ((List.range l.length).map
        (fun k => "::std::move(args.base.arg" ++ toString k ++ ")")) := by
  unfold base_args_string
  cases hl : l.isEmpty with
  | true => simp [hl]
  | false =>
    simp only [hl, Bool.not_false, if_true, Bool.false_eq_true, if_false]
    rw [map_name_wrap "::std::move(args.base." ")" l]
    rfl

/-- C1 (amended): for a non-empty list of N declared constructors the
generator produces exactly N public and exactly N private fragments;
the i-th public fragment delegates by calling routeArguments{i} with
every public argument moved, and the i-th private fragment's symbol
names — the `CxxQtConstructorArguments{i}` aggregate type in its
header, and `newRs{i}` and `initialize{i}` in its source text — all
carry the same index i, the private constructor signature being exactly
`explicit ClassName(::Namespace::CxxQtConstructorArguments{i}&& args);`
— the aggregate type is named `CxxQtConstructorArguments{i}`, not
`ConstructorArguments{i}` as originally claimed — derived solely from
the constructor's position in the declaring list. -/
theorem constructor_fragments_counts_and_indices
    (qobject : GeneratedCppQObject) (constructors : List Constructor)
    (member_initializers : List String) (cxx_mappings : ParsedCxxMappings)
    (blocks : GeneratedCppQObjectBlocks) (i : Nat) (c : Constructor)
    (argument_list : String)
    (hok : generate qobject constructors member_initializers cxx_mappings = .ok blocks)
    (hi : constructors[i]? = some c)
    (hal : expand_arguments c.arguments cxx_mappings = .ok argument_list) :
    blocks.methods.length = constructors.length ∧
    blocks.private_methods.length = constructors.length ∧
    blocks.methods[i]? = some (CppFragment.Pair
      ("explicit " ++ qobject.ident ++ "(" ++ argument_list ++ ");")
      (qobject.ident ++ "::" ++ qobject.ident ++ "(" ++ argument_list ++ ")\n  : "
        ++ qobject.ident ++ "(::" ++ qobject.namespace_internals ++ "::routeArguments"
        ++ toString i ++ "("
        ++ String.intercalate ", " ((List.range c.arguments.length).map
            (fun k => "::std::move(arg" ++ toString k ++ ")"))
        ++ "))\n\x7b \x7d\n")) ∧
    (blocks.private_methods[i]?).map fragment_header =
      some ("explicit " ++ qobject.ident ++ "(::" ++ qobject.namespace_internals
        ++ "::CxxQtConstructorArguments" ++ toString i ++ "&& args);") ∧
    (blocks.private_methods[i]?).map fragment_source =
      some (qobject.ident ++ "::" ++ qobject.ident ++ "(::"
        ++ qobject.namespace_internals ++ "::CxxQtConstructorArguments" ++ toString i
        ++ "&& args)\n  : " ++ qobject.base_class ++ "("
        ++ (if c.base_arguments.isEmpty then ""
            else String.intercalate ", " ((List.range c.base_arguments.length).map
              (fun k => "::std::move(args.base.arg" ++ toString k ++ ")")))
        ++ ")\n  , m_rustObj(::" ++ qobject.namespace_internals ++ "::newRs"
        ++ toString i ++ "(::std::move(args.new_)))"
        ++ String.join (member_initializers.map (fun snippet => "\n  , " ++ snippet))
        ++ "\n\x7b\n  ::" ++ qobject.namespace_internals ++ "::initialize" ++ toString i
        ++ "(*this, ::std::move(args.initialize));\n\x7d\n") := by
  have hne : constructors.isEmpty = false := by
    cases constructors
    · simp at hi
    · rfl
  obtain ⟨h1, h2, h3⟩ := generate_ok_get qobject constructors member_initializers
    cxx_mappings blocks hne hok
  obtain ⟨hp, al, hal', hm⟩ := h3 i c hi
  rw [hal] at hal'
  injection hal' with hal2
  subst hal2
  refine ⟨h1, h2, ?_, ?_, ?_⟩
  · rw [hm]
    unfold public_constructor_fragment
    rw [map_name_wrap "::std::move(" ")" c.arguments]
    rfl
  · rw [hp]
    rfl
  · rw [hp]
    unfold private_constructor_fragment
    rw [base_args_string_spec]
    rfl

theorem constructor_fragments_counts_and_indices_witness :
    allArgsBlocks.methods.length = [allArgsConstructor].length ∧
    allArgsBlocks.private_methods.length = [allArgsConstructor].length ∧
    allArgsBlocks.methods[0]? = some (CppFragment.Pair
      "explicit MyObject(::std::int8_t arg0, ::std::int16_t arg1);"
      "MyObject::MyObject(::std::int8_t arg0, ::std::int16_t arg1)\n  : MyObject(::rust::routeArguments0(::std::move(arg0), ::std::move(arg1)))\n\x7b \x7d\n") ∧
    (allArgsBlocks.private_methods[0]?).map fragment_header =
      some "explicit MyObject(::rust::CxxQtConstructorArguments0&& args);" ∧
    (allArgsBlocks.private_methods[0]?).map fragment_source =
      some "MyObject::MyObject(::rust::CxxQtConstructorArguments0&& args)\n  : BaseClass(::std::move(args.base.arg0), ::std::move(args.base.arg1))\n  , m_rustObj(::rust::newRs0(::std::move(args.new_)))\n  , initializer\n\x7b\n  ::rust::initialize0(*this, ::std::move(args.initialize));\n\x7d\n" :=
  constructor_fragments_counts_and_indices myObjectForTesting [allArgsConstructor]
    ["initializer"] emptyMappings allArgsBlocks 0 allArgsConstructor
    "::std::int8_t arg0, ::std::int16_t arg1" rfl rfl rfl

theorem constructor_fragments_counts_and_indices_counterexample :
    generate myObjectForTesting [allArgsConstructor] ["initializer"] emptyMappings =
      .ok allArgsBlocks ∧
    allArgsBlocks.private_methods.map fragment_header ≠
      ["explicit MyObject(rust::ConstructorArguments0&& args);"] ∧
    allArgsBlocks.private_methods.map fragment_header ≠
      ["explicit MyObject(::rust::ConstructorArguments0&& args);"] :=
  ⟨rfl, by decide, by decide⟩

/-- C2: the i-th generated private constructor's source text has exactly
this order: initializer list chaining to the base class with each
base-class argument moved out of the aggregate's base sub-group in
declared order (no arguments when the base-argument list is empty),
then initialization of the business-object slot by newRs{i} applied to
the moved new-argument sub-group as a single value, then each extra
initializer snippet in input order, and finally — as a statement in the
constructor body, not in the initializer list — a call to initialize{i}
passing a mutable reference to the constructed object and the moved
initialize-argument sub-group. -/
theorem private_constructor_source_order
    (qobject : GeneratedCppQObject) (constructors : List Constructor)
    (member_initializers : List String) (cxx_mappings : ParsedCxxMappings)
    (blocks : GeneratedCppQObjectBlocks) (i : Nat) (c : Constructor)
    (hok : generate qobject constructors member_initializers cxx_mappings = .ok blocks)
    (hi : constructors[i]? = some c) :
    (blocks.private_methods[i]?).map fragment_source =
      some (qobject.ident ++ "::" ++ qobject.ident ++ "(::"
        ++ qobject.namespace_internals ++ "::CxxQtConstructorArguments" ++ toString i
        ++ "&& args)\n  : " ++ qobject.base_class ++ "("
        ++ (if c.base_arguments.isEmpty then ""
            else String.intercalate ", " ((List.range c.base_arguments.length).map
              (fun k => "::std::move(args.base.arg" ++ toString k ++ ")")))
        ++ ")\n  , m_rustObj(::" ++ qobject.namespace_internals ++ "::newRs"
        ++ toString i ++ "(::std::move(args.new_)))"
        ++ String.join (member_initializers.map (fun snippet => "\n  , " ++ snippet))
        ++ "\n\x7b\n  ::" ++ qobject.namespace_internals ++ "::initialize" ++ toString i
        ++ "(*this, ::std::move(args.initialize));\n\x7d\n") := by
  have hne : constructors.isEmpty = false := by
    cases constructors
    · simp at hi
    · rfl
  obtain ⟨h1, h2, h3⟩ := generate_ok_get qobject constructors member_initializers
    cxx_mappings blocks hne hok
  obtain ⟨hp, _⟩ := h3 i c hi
  rw [hp]
  unfold private_constructor_fragment
  rw [base_args_string_spec]
  rfl

theorem private_constructor_source_order_witness :
    (allArgsBlocks.private_methods[0]?).map fragment_source =
      some "MyObject::MyObject(::rust::CxxQtConstructorArguments0&& args)\n  : BaseClass(::std::move(args.base.arg0), ::std::move(args.base.arg1))\n  , m_rustObj(::rust::newRs0(::std::move(args.new_)))\n  , initializer\n\x7b\n  ::rust::initialize0(*this, ::std::move(args.initialize));\n\x7d\n" :=
  private_constructor_source_order myObjectForTesting [allArgsConstructor]
    ["initializer"] emptyMappings allArgsBlocks 0 allArgsConstructor rfl rfl

/-- C8 (amended): at the example input — object `MyObject` with base
class `BaseClass`, one constructor with public arguments (i8, i16),
base arguments (i64, *mut QObject), extra initializer `"initializer"` —
the public fragment header is
`explicit MyObject(::std::int8_t arg0, ::std::int16_t arg1);` and the
private fragment's initializer-list line is
`  : BaseClass(::std::move(args.base.arg0), ::std::move(args.base.arg1))`:
both the integer-type spellings and the moves carry a leading `::`,
unlike the original claim's `std::int8_t` / `std::move`. -/
theorem example_object_fragments :
    generate myObjectForTesting [allArgsConstructor] ["initializer"] emptyMappings =
      .ok allArgsBlocks ∧
    allArgsBlocks.methods.map fragment_header =
      ["explicit MyObject(::std::int8_t arg0, ::std::int16_t arg1);"] ∧
    (allArgsBlocks.private_methods.map
        (fun f => (split_lines (fragment_source f).data)[1]?)) =
      [some ("  : BaseClass(::std::move(args.base.arg0), ::std::move(args.base.arg1))".data)] := by
  set_option maxRecDepth 4096 in
  exact ⟨rfl, rfl, by decide⟩

theorem example_object_fragments_counterexample :
    generate myObjectForTesting [allArgsConstructor] ["initializer"] emptyMappings =
      .ok allArgsBlocks ∧
    allArgsBlocks.methods.map fragment_header ≠
      ["explicit MyObject(std::int8_t arg0, std::int16_t arg1);"] ∧
    (allArgsBlocks.private_methods.map
        (fun f => (split_lines (fragment_source f).data)[1]?)) ≠
      [some ("  : BaseClass(std::move(args.base.arg0), std::move(args.base.arg1))".data)] := by
  set_option maxRecDepth 4096 in
  exact ⟨rfl, by decide, by decide⟩

theorem get_cpp_params_forall2 (inputs : List FnArg) :
    ∀ (type_names : ParsedCxxMappings) (params : List CppNamedType),
      get_cpp_params inputs type_names = .ok params →
      List.Forall₂ (fun p q => p.1 = q.ident ∧
          syn_type_to_cpp_type p.2 type_names = .ok q.ty)
        (named_non_self_params inputs) params := by
  induction inputs with
  | nil =>
    intro tn params h
    simp only [get_cpp_params, Except.ok.injEq] at h
    subst h
    simp [named_non_self_params]
  | cons input rest ih =>
    intro tn params h
    cases input with
    | receiver =>
      have h' : get_cpp_params rest tn = .ok params := h
      have h2 := ih tn params h'
      simpa [named_non_self_params, List.filterMap_cons] using h2
    | typed pat ty =>
      cases pat with
      | other d => simp [get_cpp_params] at h
      | ident name =>
        by_cases hself : name = "self"
        · subst hself
          have h' : get_cpp_params rest tn = .ok params := by
            simpa [get_cpp_params] using h
          have h2 := ih tn params h'
          simpa [named_non_self_params, List.filterMap_cons] using h2
        · replace h : (if name = "self" then get_cpp_params rest tn
              else match syn_type_to_cpp_type ty tn with
              | .error e => .error e
              | .ok cppTy =>
                match get_cpp_params rest tn with
                | .error e => .error e
                | .ok params => .ok ({ ident := name, ty := cppTy } :: params)) =
              .ok params := h
          rw [if_neg hself] at h
          cases hty : syn_type_to_cpp_type ty tn with
          | error e =>
            rw [hty] at h
            simp at h
          | ok cppTy =>
            rw [hty] at h
            cases hrest : get_cpp_params rest tn with
            | error e =>
              rw [hrest] at h
              simp at h
            | ok params' =>
              rw [hrest] at h
              simp only [Except.ok.injEq] at h
              subst h
              have h2 := ih tn params' hrest
              have hn : named_non_self_params (FnArg.typed (Pat.ident name) ty :: rest) =
                  (name, ty) :: named_non_self_params rest := by
                simp [named_non_self_params, List.filterMap_cons, hself]
              rw [hn]
              exact List.Forall₂.cons ⟨rfl, hty⟩ h2

theorem declared_eq_map_fst (inputs : List FnArg) :
    declared_param_names inputs = (named_non_self_params inputs).map Prod.fst := by
  induction inputs with
  | nil => rfl
  | cons input rest ih =>
    simp only [declared_param_names, named_non_self_params] at ih
    cases input with
    | receiver =>
      simpa [declared_param_names, named_non_self_params, List.filterMap_cons] using ih
    | typed pat ty =>
      cases pat with
      | other d =>
        simpa [declared_param_names, named_non_self_params, List.filterMap_cons] using ih
      | ident name =>
        by_cases hself : name = "self" <;>
          simp [declared_param_names, named_non_self_params, List.filterMap_cons, hself, ih]

theorem forall2_map_eq {α β : Type} {R : α → β → Prop} (f : α → String) (g : β → String)
    (hR : ∀ a b, R a b → f a = g b) :
    ∀ {l1 : List α} {l2 : List β}, List.Forall₂ R l1 l2 → l1.map f = l2.map g := by
  intro l1 l2 h
  induction h with
  | nil => rfl
  | cons hab _ ih => simp [List.map_cons, hR _ _ hab, ih]

/-- C4 (amended): names in constructor-generation signatures are the
positionally synthesized `arg0..arg{k-1}`, depending only on the number
of parameters and never on the declared types; the method parameter
extractor `get_cpp_params`, by contrast, preserves the original declared
parameter names, so declared names do appear in its (name, type)
pairs. -/
theorem parameter_names_positional_vs_declared :
    (∀ (args args' : List RustType), args.length = args'.length →
      argument_names args = argument_names args') ∧
    (∀ (args : List RustType) (i : Nat), i < args.length →
      (argument_names args)[i]? = some ("arg" ++ toString i)) ∧
    (∀ (inputs : List FnArg) (type_names : ParsedCxxMappings)
        (params : List CppNamedType),
      get_cpp_params inputs type_names = .ok params →
      params.map (fun p => p.ident) = declared_param_names inputs) := by
  refine ⟨?_, ?_, ?_⟩
  · intro args args' hlen
    rw [argument_names_range, argument_names_range, hlen]
  · intro args i hi
    rw [argument_names_range, List.getElem?_map, List.getElem?_range hi]
    rfl
  · intro inputs tn params h
    have h2 := get_cpp_params_forall2 inputs tn params h
    have h3 := forall2_map_eq Prod.fst (fun q => q.ident)
      (fun a b hab => hab.1) h2
    rw [declared_eq_map_fst, ← h3]

theorem parameter_names_positional_vs_declared_witness :
    argument_names [RustType.i8, RustType.i16] =
      argument_names [RustType.i64, RustType.ptrMut (RustType.named "QObject")] ∧
    ([{ ident := "myParam", ty := "::std::int32_t" }] : List CppNamedType).map
        (fun p => p.ident) =
      declared_param_names [FnArg.typed (Pat.ident "myParam") RustType.i32] :=
  ⟨parameter_names_positional_vs_declared.1 [RustType.i8, RustType.i16]
      [RustType.i64, RustType.ptrMut (RustType.named "QObject")] rfl,
   parameter_names_positional_vs_declared.2.2
      [FnArg.typed (Pat.ident "myParam") RustType.i32] emptyMappings
      [{ ident := "myParam", ty := "::std::int32_t" }] rfl⟩

theorem parameter_names_positional_vs_declared_counterexample :
    get_cpp_params [FnArg.typed (Pat.ident "myParam") RustType.i32] emptyMappings =
      .ok [{ ident := "myParam", ty := "::std::int32_t" }] ∧
    "myParam" ≠ "arg0" :=
  ⟨rfl, by decide⟩

/-- C5 (amended): the parameter extractor returns the named parameters
in order, skipping every parameter that is the implicit receiver — the
receiver form or a parameter bound to the name `self` — at any
position, not only in first position; and, provided every typed
parameter's type resolves, it returns the unsupported-pattern error
exactly when some typed parameter's declared pattern is not a single
bound name (the scan stops at the first failing parameter, so an
earlier unresolved-type error takes precedence otherwise). -/
theorem get_cpp_params_skips_self_and_rejects_patterns :
    (∀ (inputs : List FnArg) (type_names : ParsedCxxMappings)
        (params : List CppNamedType),
      get_cpp_params inputs type_names = .ok params →
      List.Forall₂ (fun p q => p.1 = q.ident ∧
          syn_type_to_cpp_type p.2 type_names = .ok q.ty)
        (named_non_self_params inputs) params) ∧
    (∀ (inputs : List FnArg) (type_names : ParsedCxxMappings),
      (∀ pat ty, FnArg.typed pat ty ∈ inputs →
        ∃ cpp, syn_type_to_cpp_type ty type_names = .ok cpp) →
      (get_cpp_params inputs type_names = .error "Unknown pattern for type" ↔
        ∃ descr ty, FnArg.typed (Pat.other descr) ty ∈ inputs)) := by
  refine ⟨get_cpp_params_forall2, ?_⟩
  intro inputs
  induction inputs with
  | nil =>
    intro tn hres
    constructor
    · intro h
      simp [get_cpp_params] at h
    · rintro ⟨d, ty, hmem⟩
      simp at hmem
  | cons input rest ih =>
    intro tn hres
    have hres' : ∀ pat ty, FnArg.typed pat ty ∈ rest →
        ∃ cpp, syn_type_to_cpp_type ty tn = .ok cpp :=
      fun pat ty h => hres pat ty (List.mem_cons_of_mem _ h)
    cases input with
    | receiver =>
      have heq : get_cpp_params (FnArg.receiver :: rest) tn =
          get_cpp_params rest tn := rfl
      rw [heq, ih tn hres']
      constructor
      · rintro ⟨d, ty, hmem⟩
        exact ⟨d, ty, List.mem_cons_of_mem _ hmem⟩
      · rintro ⟨d, ty, hmem⟩
        rcases List.mem_cons.mp hmem with heq2 | hmem2
        · exact absurd heq2 (by simp)
        · exact ⟨d, ty, hmem2⟩
    | typed pat ty =>
      cases pat with
      | other d =>
        have heq : get_cpp_params (FnArg.typed (Pat.other d) ty :: rest) tn =
            .error "Unknown pattern for type" := rfl
        rw [heq]
        constructor
        · intro _
          exact ⟨d, ty, List.mem_cons_self _ _⟩
        · intro _
          rfl
      | ident name =>
        by_cases hself : name = "self"
        · subst hself
          have heq : get_cpp_params (FnArg.typed (Pat.ident "self") ty :: rest) tn =
              get_cpp_params rest tn := by
            simp [get_cpp_params]
          rw [heq, ih tn hres']
          constructor
          · rintro ⟨d, ty', hmem⟩
            exact ⟨d, ty', List.mem_cons_of_mem _ hmem⟩
          · rintro ⟨d, ty', hmem⟩
            rcases List.mem_cons.mp hmem with heq2 | hmem2
            · exact absurd heq2 (by simp)
            · exact ⟨d, ty', hmem2⟩
        · obtain ⟨cpp, hcpp⟩ := hres (Pat.ident name) ty (List.mem_cons_self _ _)
          have heq : get_cpp_params (FnArg.typed (Pat.ident name) ty :: rest) tn =
              (match get_cpp_params rest tn with
               | .error e => .error e
               | .ok params => .ok ({ ident := name, ty := cpp } :: params)) := by
            have hstep : get_cpp_params (FnArg.typed (Pat.ident name) ty :: rest) tn =
                (if name = "self" then get_cpp_params rest tn
                 else match syn_type_to_cpp_type ty tn with
                 | .error e => .error e
                 | .ok cppTy =>
                   match get_cpp_params rest tn with
                   | .error e => .error e
                   | .ok params => .ok ({ ident := name, ty := cppTy } :: params)) := rfl
            rw [hstep, if_neg hself, hcpp]
          rw [heq]
          cases hrest : get_cpp_params rest tn with
          | error e =>
            constructor
            · intro h
              simp only [Except.error.injEq] at h
              subst h
              obtain ⟨d, ty', hm⟩ := (ih tn hres').mp hrest
              exact ⟨d, ty', List.mem_cons_of_mem _ hm⟩
            · rintro ⟨d, ty', hmem⟩
              rcases List.mem_cons.mp hmem with heq2 | hmem2
              · exact absurd heq2 (by simp)
              · have hc := (ih tn hres').mpr ⟨d, ty', hmem2⟩
                rw [hrest] at hc
                exact hc
          | ok params' =>
            constructor
            · intro h
              exact absurd h (by simp)
            · rintro ⟨d, ty', hmem⟩
              rcases List.mem_cons.mp hmem with heq2 | hmem2
              · exact absurd heq2 (by simp)
              · have hc := (ih tn hres').mpr ⟨d, ty', hmem2⟩
                rw [hrest] at hc
                exact absurd hc (by simp)

theorem get_cpp_params_skips_self_and_rejects_patterns_witness :
    List.Forall₂ (fun (p : String × RustType) (q : CppNamedType) => p.1 = q.ident ∧
        syn_type_to_cpp_type p.2 emptyMappings = .ok q.ty)
      (named_non_self_params
        [FnArg.receiver, FnArg.typed (Pat.ident "count") RustType.i32])
      ([{ ident := "count", ty := "::std::int32_t" }] : List CppNamedType) :=
  get_cpp_params_skips_self_and_rejects_patterns.1
    [FnArg.receiver, FnArg.typed (Pat.ident "count") RustType.i32] emptyMappings
    [{ ident := "count", ty := "::std::int32_t" }] rfl

theorem get_cpp_params_skips_self_and_rejects_patterns_counterexample :
    get_cpp_params [FnArg.typed (Pat.ident "x") RustType.i32,
        FnArg.typed (Pat.ident "self") RustType.i32] emptyMappings =
      .ok [{ ident := "x", ty := "::std::int32_t" }] ∧
    get_cpp_params [FnArg.typed (Pat.ident "x") (RustType.unsupported "reference"),
        FnArg.typed (Pat.other "tuple pattern") RustType.i32] emptyMappings =
      .error "Unsupported type: reference" :=
  ⟨rfl, rfl⟩

theorem btree_insert_mem (x a : String) : ∀ (s : List String),
    a ∈ btree_insert s x → a = x ∨ a ∈ s := by
  intro s
  induction s with
  | nil =>
    intro h
    simpa [btree_insert] using h
  | cons y ys ih =>
    intro h
    unfold btree_insert at h
    by_cases h1 : x < y
    · rw [if_pos h1] at h
      rcases List.mem_cons.mp h with rfl | h2
      · exact Or.inl rfl
      · exact Or.inr h2
    · rw [if_neg h1] at h
      by_cases h2 : x = y
      · rw [if_pos h2] at h
        exact Or.inr h
      · rw [if_neg h2] at h
        rcases List.mem_cons.mp h with rfl | h3
        · exact Or.inr (List.mem_cons_self _ _)
        · rcases ih h3 with h4 | h4
          · exact Or.inl h4
          · exact Or.inr (List.mem_cons_of_mem _ h4)

theorem btree_insert_pairwise (x : String) : ∀ (s : List String),
    s.Pairwise (· < ·) → (btree_insert s x).Pairwise (· < ·) := by
  intro s
  induction s with
  | nil =>
    intro _
    simp [btree_insert]
  | cons y ys ih =>
    intro h
    rw [List.pairwise_cons] at h
    obtain ⟨hy, hys⟩ := h
    unfold btree_insert
    by_cases h1 : x < y
    · rw [if_pos h1]
      refine List.pairwise_cons.mpr ⟨?_, List.pairwise_cons.mpr ⟨hy, hys⟩⟩
      intro z hz
      rcases List.mem_cons.mp hz with rfl | h2
      · exact h1
      · exact lt_trans h1 (hy z h2)
    · rw [if_neg h1]
      by_cases h2 : x = y
      · rw [if_pos h2]
        exact List.pairwise_cons.mpr ⟨hy, hys⟩
      · rw [if_neg h2]
        refine List.pairwise_cons.mpr ⟨?_, ih hys⟩
        intro z hz
        rcases btree_insert_mem x z ys hz with heq | h3
        · rw [heq]
          rcases lt_trichotomy x y with h4 | h4 | h4
          · exact absurd h4 h1
          · exact absurd h4 h2
          · exact h4
        · exact hy z h3

theorem collect_includes_pairwise_aux (insertions : List String) :
    ∀ (acc : List String), acc.Pairwise (· < ·) →
      (insertions.foldl btree_insert acc).Pairwise (· < ·) := by
  induction insertions with
  | nil =>
    intro acc h
    exact h
  | cons x xs ih =>
    intro acc h
    exact ih (btree_insert acc x) (btree_insert_pairwise x acc h)

/-- C10: however the per-feature generators insert include entries —
in any order and with any multiplicity — the assembled output's include
list is strictly sorted and therefore free of duplicates. -/
theorem includes_sorted_and_nodup (include_insertions forward_declares : List String)
    (cxx_file_stem : String) :
    ((generated_cpp_blocks_from include_insertions forward_declares
        cxx_file_stem).includes).Pairwise (· < ·) ∧
    ((generated_cpp_blocks_from include_insertions forward_declares
        cxx_file_stem).includes).Nodup := by
  have h := collect_includes_pairwise_aux include_insertions [] List.Pairwise.nil
  exact ⟨h, h.imp (fun hab => ne_of_lt hab)⟩
